import Mathlib

/-!
Shallow embedding of the Sema-ASR service (`src/Sema-ASR/src/asr.py`):
the `POST /transcribe/` request handler (`transcribe_audio`), the
transcription engine (`transcribe`, `preprocess_audio`, `load_model`)
and the `GET /health` endpoint (`health_check`).

External effects (temporary-file creation and writing, the inference
call, file deletion, CUDA availability) are passed in as explicit
oracle values; the embedding records the handler's observable trace:
the HTTP response, how many temporary files were created, whether the
temporary file still exists after the request, and whether the engine
was invoked.
-/

set_option autoImplicit false

namespace SemaASR

/-- Audio configuration constant `SAMPLE_RATE = 16000` (asr.py line 41). -/
def SAMPLE_RATE : Nat := 16000

/-- Audio configuration constant `MAX_INPUT_LENGTH = 30` seconds (asr.py line 42). -/
def MAX_INPUT_LENGTH : Nat := 30

/-! ## `os.path.splitext`

The handler computes `os.path.splitext(file.filename or '')[1].lower()`.
CPython (`genericpath._splitext`, posix separator) finds the last `'.'`
after the last `'/'` and splits there, provided some character strictly
between the start of the basename and that dot is not itself a dot. -/

/-- Index of the last occurrence of `c` in `l` (0-based), if any. -/
def lastIndexOf (c : Char) : List Char → Option Nat
  | [] => none
  | a :: as =>
    match lastIndexOf c as with
    | some j => some (j + 1)
    | none => if a = c then some 0 else none

/-- `os.path.splitext` on a posix path, returning `(root, ext)`. -/
def splitext (p : String) : String × String :=
  let l := p.data
  let sepIndex : Int := match lastIndexOf '/' l with | some i => (i : Int) | none => -1
  match lastIndexOf '.' l with
  | none => (p, "")
  | some dotIndex =>
    if (dotIndex : Int) > sepIndex then
      let nameStart : Nat := ((sepIndex + 1).toNat)
      if ((l.drop nameStart).take (dotIndex - nameStart)).any (fun c => c ≠ '.') then
        (String.mk (l.take dotIndex), String.mk (l.drop dotIndex))
      else (p, "")
    else (p, "")

/-! ## Data model of a request -/

/-- An upload: declared filename and declared content type, as FastAPI's
`UploadFile` exposes them (both may be absent). The raw bytes are not
inspected by the handler, so they are not modelled. -/
structure Upload where
  filename : Option String
  content_type : Option String
deriving DecidableEq, Repr

/-- Outcome of the staging block
`with tempfile.NamedTemporaryFile(delete=False) as temp_file: contents = await file.read(); temp_file.write(contents)`:
either everything succeeds, or `NamedTemporaryFile` itself raises (no file
was created), or `file.read()`/`temp_file.write` raises after the file was
already created on disk. -/
inductive StageOutcome where
  | ok
  | openFail (msg : String)
  | writeFail (msg : String)
deriving DecidableEq, Repr

/-- Outcome of the call `transcribe(temp_file_path)` as seen by the handler:
a transcript, an `ASRError` with a message, or any other exception. -/
inductive CallOutcome where
  | ok (text : String)
  | asrError (msg : String)
  | otherError (msg : String)
deriving DecidableEq, Repr

/-- The external effects a single request can encounter. `unlinkOk` tells
whether `os.unlink(temp_file_path)` in the `finally` block succeeds. -/
structure Env where
  stage : StageOutcome
  engine : CallOutcome
  unlinkOk : Bool
deriving DecidableEq, Repr

/-- The JSON body returned on success (asr.py lines 218-225). -/
structure SuccessBody where
  status : String
  transcription : String
  language : String
  model : String
  model_version : String
  duration_seconds : Option Nat
deriving DecidableEq, Repr

/-- An HTTP response: a 200 with the success body, or an
`HTTPException(status_code, detail)`. -/
inductive Response where
  | ok (body : SuccessBody)
  | err (code : Nat) (detail : String)
deriving DecidableEq, Repr

/-- HTTP status code of a response (FastAPI returns 200 for a plain dict). -/
def Response.code : Response → Nat
  | .ok _ => 200
  | .err c _ => c

/-- The `detail` field of an error response. -/
def Response.detail : Response → Option String
  | .ok _ => none
  | .err _ d => some d

/-- Observable outcome of one `POST /transcribe/` request: the response
plus the side-effect trace on the filesystem and the engine. -/
structure HandlerOutput where
  response : Response
  tempFilesCreated : Nat
  tempFileExistsAfter : Bool
  engineInvoked : Bool
deriving DecidableEq, Repr

/-- The allow-list `audio_extensions` (asr.py line 180). -/
def audio_extensions : List String :=
  [".wav", ".mp3", ".ogg", ".flac", ".aac", ".m4a", ".wma"]

/-- Python's `str.lower()`, restricted to the ASCII range (the only
characters the allow-listed extensions contain). -/
def pyLower (s : String) : String :=
  String.mk (s.data.map Char.toLower)

/-- Python's `str.startswith(pre)`. -/
def pyStartsWith (s pre : String) : Bool :=
  pre.data.isPrefixOf s.data

/-- `os.path.splitext(file.filename or '')[1].lower()` (asr.py line 181). -/
def fileExtension (file : Upload) : String :=
  pyLower (splitext (file.filename.getD "")).2

/-- The validation block (asr.py lines 184-193): `some detail` when the
upload is rejected with a 400, `none` when it passes.
The first branch fires when a content type is declared and does not start
with `audio/`; the `elif` fires when the extension is not allow-listed. -/
def validationError (file : Upload) : Option String :=
  match file.content_type with
  | some ct =>
    if pyStartsWith ct "audio/" = false then
      some ("Invalid file type. Expected audio file, got " ++ ct)
    else if fileExtension file ∉ audio_extensions then
      some ("Unsupported audio format. Supported formats: " ++
        String.intercalate ", " audio_extensions)
    else none
  | none =>
    if fileExtension file ∉ audio_extensions then
      some ("Unsupported audio format. Supported formats: " ++
        String.intercalate ", " audio_extensions)
    else none

/-- The `POST /transcribe/` handler `transcribe_audio` (asr.py lines 166-251).

Control flow follows the source: validation raises 400 before any
temporary-storage operation; the staging `try` (lines 196-208) raises 500
on failure and is NOT covered by the `finally` (lines 245-251), which
belongs only to the processing `try` (lines 211-243); on the processing
paths the `finally` deletes the temporary file, swallowing deletion
failures. -/
def transcribe_audio (file : Upload) (env : Env) (language : String := "sw") :
    HandlerOutput :=
  match validationError file with
  | some detail =>
    { response := .err 400 detail
      tempFilesCreated := 0
      tempFileExistsAfter := false
      engineInvoked := false }
  | none =>
    match env.stage with
    | .openFail msg =>
      { response := .err 500 ("Failed to save uploaded file: " ++ msg)
        tempFilesCreated := 0
        tempFileExistsAfter := false
        engineInvoked := false }
    | .writeFail msg =>
      { response := .err 500 ("Failed to save uploaded file: " ++ msg)
        tempFilesCreated := 1
        tempFileExistsAfter := true
        engineInvoked := false }
    | .ok =>
      let existsAfter : Bool := ! env.unlinkOk
      match env.engine with
      | .ok text =>
        { response := .ok
            { status := "success"
              transcription := text
              language := language
              model := "RareElf/swahili-wav2vec2-asr"
              model_version := "1.0.0"
              duration_seconds := none }
          tempFilesCreated := 1
          tempFileExistsAfter := existsAfter
          engineInvoked := true }
      | .asrError msg =>
        { response := .err 422 ("ASR processing error: " ++ msg)
          tempFilesCreated := 1
          tempFileExistsAfter := existsAfter
          engineInvoked := true }
      | .otherError _ =>
        { response := .err 500 "An unexpected error occurred during transcription"
          tempFilesCreated := 1
          tempFileExistsAfter := existsAfter
          engineInvoked := true }

/-! ## The transcription engine -/

/-- Characters removed by Python's `str.strip()` (the ASCII whitespace
class; the model restricts attention to it). -/
def pyIsSpace (c : Char) : Bool :=
  c = ' ' || c = '\t' || c = '\n' || c = '\x0d' || c = '\x0b' || c = '\x0c'

/-- Python's `str.strip()`: drop leading and trailing whitespace. -/
def pyStrip (s : String) : String :=
  String.mk ((((s.data.dropWhile pyIsSpace).reverse).dropWhile pyIsSpace).reverse)

/-- The module-level engine state: the globals `asr_processor`, `asr_model`
and `asr_device` (asr.py lines 36-38). Only presence of the processor and
model and the chosen device string are relevant to control flow. -/
structure EngineState where
  processorLoaded : Bool
  modelLoaded : Bool
  device : Option String
deriving DecidableEq, Repr

/-- The initial module state: all three globals are `None`. -/
def initialState : EngineState :=
  { processorLoaded := false, modelLoaded := false, device := none }

/-- Outcome of the two `from_pretrained` calls inside `load_model`. -/
inductive LoadOutcome where
  | ok
  | processorFail (msg : String)
  | modelFail (msg : String)
deriving DecidableEq, Repr

/-- `load_model` (asr.py lines 48-81): sets the device from CUDA
availability, then loads processor and model; any failure is wrapped in
an `ASRError` and the partially updated globals remain. Returns the new
state and the raised error message, if any. -/
def load_model (cudaAvailable : Bool) (out : LoadOutcome) (st : EngineState) :
    EngineState × Option String :=
  let device := if cudaAvailable then "cuda" else "cpu"
  match out with
  | .ok =>
    ({ processorLoaded := true, modelLoaded := true, device := some device }, none)
  | .processorFail msg =>
    ({ st with device := some device },
      some ("Failed to load ASR model: " ++ msg))
  | .modelFail msg =>
    ({ st with device := some device, processorLoaded := true },
      some ("Failed to load ASR model: " ++ msg))

/-- Outcome of the body of `transcribe`'s `try` block — audio loading,
feature extraction, inference and decoding (asr.py lines 134-158) — as an
oracle: either the decoded `batch_decode` output, or the message of
whatever exception was raised. -/
inductive InferOutcome where
  | decoded (text : String)
  | raised (msg : String)
deriving DecidableEq, Repr

/-- Result of `transcribe`: the returned text or the message of the
`ASRError` it raises. -/
inductive EngineResult where
  | ok (text : String)
  | asrError (msg : String)
deriving DecidableEq, Repr

/-- `transcribe` (asr.py lines 117-163): raises
`ASRError("ASR model not loaded")` when the processor or model global is
still `None`; otherwise returns the decoded text stripped of surrounding
whitespace, wrapping any exception from the `try` body in
`ASRError("Transcription failed: ...")`. -/
def transcribe (st : EngineState) (infer : InferOutcome) : EngineResult :=
  if ¬ st.processorLoaded ∨ ¬ st.modelLoaded then
    .asrError "ASR model not loaded"
  else
    match infer with
    | .decoded text => .ok (pyStrip text)
    | .raised msg => .asrError ("Transcription failed: " ++ msg)

/-- How the handler observes a call to `transcribe`: an `ASRError` is the
classified failure; `transcribe` raises nothing else. -/
def EngineResult.toCallOutcome : EngineResult → CallOutcome
  | .ok text => .ok text
  | .asrError msg => .asrError msg

/-! ## Audio preprocessing -/

/-- The audio content of an uploaded file as it exists on disk: native
sample rate, channel count, and frames per channel. -/
structure RawAudio where
  sampleRate : Nat
  channels : Nat
  frames : Nat
deriving DecidableEq, Repr

/-- Shape of the waveform handed to the model. -/
structure Waveform where
  sampleRate : Nat
  channels : Nat
  frames : Nat
deriving DecidableEq, Repr

/-- `librosa.load(path, sr=sr, mono=True, duration=duration)`: reads at
most `duration` seconds at the native rate, down-mixes to one channel and
resamples to `sr` (output length is the ceiling of the exact ratio). -/
def librosa_load (a : RawAudio) (sr : Nat) (duration : Nat) : Waveform :=
  let nativeFrames := min a.frames (duration * a.sampleRate)
  { sampleRate := sr
    channels := 1
    frames := (nativeFrames * sr + a.sampleRate - 1) / a.sampleRate }

/-- `preprocess_audio` (asr.py lines 86-115): calls `librosa.load` with
`sr=SAMPLE_RATE`, `mono=True`, `duration=MAX_INPUT_LENGTH`. (The
subsequent `torch.FloatTensor(...).unsqueeze(0)` adds a batch dimension
and does not change rate, channel count or frame count.) -/
def preprocess_audio (a : RawAudio) : Waveform :=
  librosa_load a SAMPLE_RATE MAX_INPUT_LENGTH

/-! ## The health endpoint -/

/-- The JSON body returned by `GET /health` (asr.py lines 253-278): the
healthy shape with its six keys, or the two-key unhealthy shape. -/
inductive HealthBody where
  | healthy (model_loaded : Bool) (model_status : String) (device : String)
      (max_audio_length_seconds : Nat) (sample_rate : Nat)
  | unhealthy (error : String)
deriving DecidableEq, Repr

/-- The `status` key of a health response. -/
def HealthBody.status : HealthBody → String
  | .healthy _ _ _ _ _ => "healthy"
  | .unhealthy _ => "unhealthy"

/-- `health_check` (asr.py lines 253-278) as a total function of the
module state. `bodyFail` is the oracle for an exception inside the `try`
block (its message); the except-branch returns the unhealthy body instead
of raising. -/
def health_check (st : EngineState) (bodyFail : Option String) : HealthBody :=
  match bodyFail with
  | some msg => .unhealthy msg
  | none =>
    .healthy st.modelLoaded
      (if st.modelLoaded then "loaded" else "not loaded")
      (match st.device with
        | some d => if d = "" then "unknown" else d
        | none => "unknown")
      MAX_INPUT_LENGTH SAMPLE_RATE

/-! ## Shared lemmas -/

/-- A rejected validation short-circuits the handler: 400, no staging,
no engine call. -/
theorem transcribe_audio_of_validation_some {file : Upload} (env : Env)
    (lang d : String) (h : validationError file = some d) :
    transcribe_audio file env lang =
      { response := .err 400 d, tempFilesCreated := 0,
        tempFileExistsAfter := false, engineInvoked := false } := by
  unfold transcribe_audio
  rw [h]

/-- Shape of the handler output once validation passed and staging
succeeded, by cases on the engine outcome. -/
theorem transcribe_audio_of_stage_ok {file : Upload} {env : Env}
    (lang : String) (hv : validationError file = none) (hs : env.stage = .ok) :
    transcribe_audio file env lang =
      match env.engine with
      | .ok text =>
        { response := .ok
            { status := "success", transcription := text, language := lang
              model := "RareElf/swahili-wav2vec2-asr", model_version := "1.0.0"
              duration_seconds := none }
          tempFilesCreated := 1
          tempFileExistsAfter := ! env.unlinkOk
          engineInvoked := true }
      | .asrError msg =>
        { response := .err 422 ("ASR processing error: " ++ msg)
          tempFilesCreated := 1
          tempFileExistsAfter := ! env.unlinkOk
          engineInvoked := true }
      | .otherError _ =>
        { response := .err 500 "An unexpected error occurred during transcription"
          tempFilesCreated := 1
          tempFileExistsAfter := ! env.unlinkOk
          engineInvoked := true } := by
  unfold transcribe_audio
  rw [hv, hs]

/-- The first character surviving `dropWhile p` falsifies `p`. -/
theorem head?_dropWhile_false {p : Char → Bool} {l : List Char} {c : Char}
    (h : (l.dropWhile p).head? = some c) : p c = false := by
  have hm := List.head?_dropWhile_not p l
  rw [h] at hm
  exact hm

/-! ## Claims -/

/-- Claim C2: an upload whose declared content type does not begin with
`audio/` is rejected with HTTP 400, and an upload passing that check whose
lower-cased filename extension is outside the allow-list is rejected with
HTTP 400; in both cases no temporary file is created and the engine is
never invoked (validation precedes all temporary-storage work). -/
theorem transcribe_audio_validation_rejects (file : Upload) (env : Env)
    (lang ct : String) :
    (file.content_type = some ct → pyStartsWith ct "audio/" = false →
      (transcribe_audio file env lang).response.code = 400 ∧
      (transcribe_audio file env lang).tempFilesCreated = 0 ∧
      (transcribe_audio file env lang).engineInvoked = false) ∧
    ((file.content_type = none ∨
        (file.content_type = some ct ∧ pyStartsWith ct "audio/" = true)) →
      fileExtension file ∉ audio_extensions →
      (transcribe_audio file env lang).response.code = 400 ∧
      (transcribe_audio file env lang).tempFilesCreated = 0 ∧
      (transcribe_audio file env lang).engineInvoked = false) := by
  constructor
  · intro hct hsw
    have h : validationError file =
        some ("Invalid file type. Expected audio file, got " ++ ct) := by
      unfold validationError
      rw [hct]
      simp [hsw]
    rw [transcribe_audio_of_validation_some env lang _ h]
    exact ⟨rfl, rfl, rfl⟩
  · intro hct hext
    have h : validationError file =
        some ("Unsupported audio format. Supported formats: " ++
          String.intercalate ", " audio_extensions) := by
      unfold validationError
      rcases hct with hnone | ⟨hsome, hsw⟩
      · rw [hnone]
        simp [hext]
      · rw [hsome]
        simp [hsw, hext]
    rw [transcribe_audio_of_validation_some env lang _ h]
    exact ⟨rfl, rfl, rfl⟩

/-- Claim C2, witness: a `text/plain` upload and a content-type-free
`.txt` upload are both rejected with 400 and create no temporary file. -/
theorem transcribe_audio_validation_rejects_witness :
    ((Upload.mk (some "sample.wav") (some "text/plain")).content_type =
        some "text/plain" ∧
      pyStartsWith "text/plain" "audio/" = false ∧
      (transcribe_audio ⟨some "sample.wav", some "text/plain"⟩
          ⟨.ok, .ok "x", true⟩ "sw").response.code = 400 ∧
      (transcribe_audio ⟨some "sample.wav", some "text/plain"⟩
          ⟨.ok, .ok "x", true⟩ "sw").tempFilesCreated = 0 ∧
      (transcribe_audio ⟨some "sample.wav", some "text/plain"⟩
          ⟨.ok, .ok "x", true⟩ "sw").engineInvoked = false) ∧
    ((Upload.mk (some "notes.txt") none).content_type = none ∧
      fileExtension ⟨some "notes.txt", none⟩ ∉ audio_extensions ∧
      (transcribe_audio ⟨some "notes.txt", none⟩
          ⟨.ok, .ok "x", true⟩ "sw").response.code = 400 ∧
      (transcribe_audio ⟨some "notes.txt", none⟩
          ⟨.ok, .ok "x", true⟩ "sw").tempFilesCreated = 0 ∧
      (transcribe_audio ⟨some "notes.txt", none⟩
          ⟨.ok, .ok "x", true⟩ "sw").engineInvoked = false) :=
  ⟨⟨rfl, by decide,
      (transcribe_audio_validation_rejects ⟨some "sample.wav", some "text/plain"⟩
        ⟨.ok, .ok "x", true⟩ "sw" "text/plain").1 rfl (by decide)⟩,
    ⟨rfl, by decide,
      (transcribe_audio_validation_rejects ⟨some "notes.txt", none⟩
        ⟨.ok, .ok "x", true⟩ "sw" "text/plain").2 (Or.inl rfl) (by decide)⟩⟩

/-- Claim C5: when validation, staging and transcription all succeed, the
response is a 200 whose body has exactly the keys
`status="success"`, `transcription` (the engine's text), `language` (the
request's parameter, `"sw"` when omitted),
`model="RareElf/swahili-wav2vec2-asr"`, `model_version="1.0.0"` and
`duration_seconds=null`. -/
theorem transcribe_audio_success_response (file : Upload) (env : Env)
    (lang text : String) (hv : validationError file = none)
    (hs : env.stage = .ok) (he : env.engine = .ok text) :
    (transcribe_audio file env lang).response =
      .ok { status := "success", transcription := text, language := lang
            model := "RareElf/swahili-wav2vec2-asr", model_version := "1.0.0"
            duration_seconds := none } ∧
    (transcribe_audio file env lang).response.code = 200 ∧
    (transcribe_audio file env).response =
      .ok { status := "success", transcription := text, language := "sw"
            model := "RareElf/swahili-wav2vec2-asr", model_version := "1.0.0"
            duration_seconds := none } := by
  rw [transcribe_audio_of_stage_ok lang hv hs,
    transcribe_audio_of_stage_ok "sw" hv hs, he]
  exact ⟨rfl, rfl, rfl⟩

/-- Claim C5, witness: a validated `.wav` upload with successful staging
and transcription yields the exact success body. -/
theorem transcribe_audio_success_response_witness :
    validationError ⟨some "sample.wav", some "audio/wav"⟩ = none ∧
    (Env.mk .ok (.ok "habari") true).stage = .ok ∧
    (Env.mk .ok (.ok "habari") true).engine = .ok "habari" ∧
    ((transcribe_audio ⟨some "sample.wav", some "audio/wav"⟩
        ⟨.ok, .ok "habari", true⟩ "sw").response =
      .ok { status := "success", transcription := "habari", language := "sw"
            model := "RareElf/swahili-wav2vec2-asr", model_version := "1.0.0"
            duration_seconds := none } ∧
    (transcribe_audio ⟨some "sample.wav", some "audio/wav"⟩
        ⟨.ok, .ok "habari", true⟩ "sw").response.code = 200 ∧
    (transcribe_audio ⟨some "sample.wav", some "audio/wav"⟩
        ⟨.ok, .ok "habari", true⟩).response =
      .ok { status := "success", transcription := "habari", language := "sw"
            model := "RareElf/swahili-wav2vec2-asr", model_version := "1.0.0"
            duration_seconds := none }) :=
  ⟨by decide, rfl, rfl,
    transcribe_audio_success_response ⟨some "sample.wav", some "audio/wav"⟩
      ⟨.ok, .ok "habari", true⟩ "sw" "habari" (by decide) rfl rfl⟩

/-- Claim C8: when writing the upload to the temporary file fails during
staging, the handler answers 500 and the engine is never invoked — whether
the failure struck before or after the temporary file came into being. -/
theorem transcribe_audio_staging_failure (file : Upload) (env : Env)
    (lang msg : String) (hv : validationError file = none)
    (hs : env.stage = .openFail msg ∨ env.stage = .writeFail msg) :
    (transcribe_audio file env lang).response =
      .err 500 ("Failed to save uploaded file: " ++ msg) ∧
    (transcribe_audio file env lang).response.code = 500 ∧
    (transcribe_audio file env lang).engineInvoked = false := by
  unfold transcribe_audio
  rw [hv]
  rcases hs with hs | hs
  · rw [hs]
    exact ⟨rfl, rfl, rfl⟩
  · rw [hs]
    exact ⟨rfl, rfl, rfl⟩

/-- Claim C8, witness: a validated upload whose temp-file write fails gets
a 500 and the engine is not called. -/
theorem transcribe_audio_staging_failure_witness :
    validationError ⟨some "sample.wav", some "audio/wav"⟩ = none ∧
    ((Env.mk (.writeFail "disk full") (.ok "x") true).stage =
        .openFail "disk full" ∨
      (Env.mk (.writeFail "disk full") (.ok "x") true).stage =
        .writeFail "disk full") ∧
    ((transcribe_audio ⟨some "sample.wav", some "audio/wav"⟩
        ⟨.writeFail "disk full", .ok "x", true⟩ "sw").response =
      .err 500 ("Failed to save uploaded file: " ++ "disk full") ∧
    (transcribe_audio ⟨some "sample.wav", some "audio/wav"⟩
        ⟨.writeFail "disk full", .ok "x", true⟩ "sw").response.code = 500 ∧
    (transcribe_audio ⟨some "sample.wav", some "audio/wav"⟩
        ⟨.writeFail "disk full", .ok "x", true⟩ "sw").engineInvoked = false) :=
  ⟨by decide, Or.inr rfl,
    transcribe_audio_staging_failure ⟨some "sample.wav", some "audio/wav"⟩
      ⟨.writeFail "disk full", .ok "x", true⟩ "sw" "disk full" (by decide)
      (Or.inr rfl)⟩

/-- Claim C9: an upload with no declared content type and a missing or
empty filename is rejected with 400 (its extension is the empty string,
which is not allow-listed) and no temporary file is created. -/
theorem transcribe_audio_rejects_no_name (file : Upload) (env : Env)
    (lang : String) (hct : file.content_type = none)
    (hfn : file.filename = none ∨ file.filename = some "") :
    (transcribe_audio file env lang).response.code = 400 ∧
    (transcribe_audio file env lang).tempFilesCreated = 0 := by
  have hext : fileExtension file = "" := by
    rcases hfn with hfn | hfn <;> rw [fileExtension, hfn] <;> rfl
  have h : validationError file =
      some ("Unsupported audio format. Supported formats: " ++
        String.intercalate ", " audio_extensions) := by
    unfold validationError
    rw [hct]
    simp [hext, audio_extensions]
  rw [transcribe_audio_of_validation_some env lang _ h]
  exact ⟨rfl, rfl⟩

/-- Claim C9, witness: no content type and no filename is a 400 with no
temporary file. -/
theorem transcribe_audio_rejects_no_name_witness :
    (Upload.mk none none).content_type = none ∧
    ((Upload.mk none none).filename = none ∨
      (Upload.mk none none).filename = some "") ∧
    ((transcribe_audio ⟨none, none⟩ ⟨.ok, .ok "x", true⟩ "sw").response.code
        = 400 ∧
      (transcribe_audio ⟨none, none⟩ ⟨.ok, .ok "x", true⟩
          "sw").tempFilesCreated = 0) :=
  ⟨rfl, Or.inl rfl,
    transcribe_audio_rejects_no_name ⟨none, none⟩ ⟨.ok, .ok "x", true⟩ "sw"
      rfl (Or.inl rfl)⟩

/-- Claim C1 (amended): for every upload accepted by validation whose
staging succeeds, exactly one temporary file is created and — on success,
classified 422 failure, or unexpected 500 failure alike — when the
cleanup deletion call succeeds the file no longer exists on disk after
the request. -/
theorem transcribe_audio_cleanup (file : Upload) (env : Env) (lang : String)
    (hv : validationError file = none) (hs : env.stage = .ok)
    (hu : env.unlinkOk = true) :
    (transcribe_audio file env lang).tempFilesCreated = 1 ∧
    (transcribe_audio file env lang).tempFileExistsAfter = false := by
  rw [transcribe_audio_of_stage_ok lang hv hs]
  cases he : env.engine <;> simp [he, hu]

/-- Claim C1, witness: on the success path with staging and deletion both
succeeding, one temporary file is created and none remains. -/
theorem transcribe_audio_cleanup_witness :
    validationError ⟨some "sample.wav", some "audio/wav"⟩ = none ∧
    (Env.mk .ok (.ok "habari") true).stage = .ok ∧
    (Env.mk .ok (.ok "habari") true).unlinkOk = true ∧
    ((transcribe_audio ⟨some "sample.wav", some "audio/wav"⟩
        ⟨.ok, .ok "habari", true⟩ "sw").tempFilesCreated = 1 ∧
      (transcribe_audio ⟨some "sample.wav", some "audio/wav"⟩
        ⟨.ok, .ok "habari", true⟩ "sw").tempFileExistsAfter = false) :=
  ⟨by decide, rfl, rfl,
    transcribe_audio_cleanup ⟨some "sample.wav", some "audio/wav"⟩
      ⟨.ok, .ok "habari", true⟩ "sw" (by decide) rfl rfl⟩

/-- Claim C1, counterexample to the claim as stated: for a validated
upload, (i) when the temp-file write fails after the file was created
(a staging failure), the `finally` block of the processing `try` is never
reached and the file still exists after the request; (ii) when
`NamedTemporaryFile` itself fails, no file is created at all; (iii) even
past staging, if the deletion call fails the file remains. -/
theorem transcribe_audio_cleanup_counterexample :
    validationError ⟨some "sample.wav", some "audio/wav"⟩ = none ∧
    (transcribe_audio ⟨some "sample.wav", some "audio/wav"⟩
        ⟨.writeFail "disk full", .ok "habari", true⟩
        "sw").tempFilesCreated = 1 ∧
    (transcribe_audio ⟨some "sample.wav", some "audio/wav"⟩
        ⟨.writeFail "disk full", .ok "habari", true⟩
        "sw").tempFileExistsAfter = true ∧
    (transcribe_audio ⟨some "sample.wav", some "audio/wav"⟩
        ⟨.openFail "no space", .ok "habari", true⟩
        "sw").tempFilesCreated = 0 ∧
    (transcribe_audio ⟨some "sample.wav", some "audio/wav"⟩
        ⟨.ok, .ok "habari", false⟩ "sw").tempFileExistsAfter = true := by
  refine ⟨by decide, rfl, rfl, rfl, rfl⟩

/-- Claim C3: past validation and staging, a classified engine failure
(`ASRError` with message `msg`) yields a 422 whose detail contains `msg`;
an unclassified failure yields a 500 whose detail is the fixed string
"An unexpected error occurred during transcription" — in particular the
response does not vary with the internal exception's text. -/
theorem transcribe_audio_engine_failure (file : Upload) (env : Env)
    (lang msg : String) (hv : validationError file = none)
    (hs : env.stage = .ok) :
    (env.engine = .asrError msg →
      (transcribe_audio file env lang).response =
        .err 422 ("ASR processing error: " ++ msg) ∧
      msg.data <:+: ("ASR processing error: " ++ msg).data) ∧
    (env.engine = .otherError msg →
      (transcribe_audio file env lang).response =
        .err 500 "An unexpected error occurred during transcription") ∧
    (∀ msg2,
      (transcribe_audio file { env with engine := .otherError msg }
          lang).response =
        (transcribe_audio file { env with engine := .otherError msg2 }
          lang).response) := by
  refine ⟨?_, ?_, ?_⟩
  · intro he
    rw [transcribe_audio_of_stage_ok lang hv hs, he]
    refine ⟨rfl, ?_⟩
    rw [String.data_append]
    exact (List.suffix_append _ _).isInfix
  · intro he
    rw [transcribe_audio_of_stage_ok lang hv hs, he]
  · intro msg2
    rw [@transcribe_audio_of_stage_ok file { env with engine := .otherError msg }
        lang hv hs,
      @transcribe_audio_of_stage_ok file { env with engine := .otherError msg2 }
        lang hv hs]

/-- Claim C3, witness: a classified failure "boom" gives a 422 carrying
"boom"; an unclassified failure "secret traceback" gives the generic 500,
identical to the one another message would give. -/
theorem transcribe_audio_engine_failure_witness :
    validationError ⟨some "sample.wav", some "audio/wav"⟩ = none ∧
    (Env.mk .ok (.asrError "boom") true).stage = .ok ∧
    ((transcribe_audio ⟨some "sample.wav", some "audio/wav"⟩
        ⟨.ok, .asrError "boom", true⟩ "sw").response =
      .err 422 ("ASR processing error: " ++ "boom") ∧
    ("boom").data <:+: ("ASR processing error: " ++ "boom").data) ∧
    ((transcribe_audio ⟨some "sample.wav", some "audio/wav"⟩
        ⟨.ok, .otherError "secret traceback", true⟩ "sw").response =
      .err 500 "An unexpected error occurred during transcription") ∧
    ((transcribe_audio ⟨some "sample.wav", some "audio/wav"⟩
        ⟨.ok, .otherError "secret traceback", true⟩ "sw").response =
      (transcribe_audio ⟨some "sample.wav", some "audio/wav"⟩
        ⟨.ok, .otherError "another secret", true⟩ "sw").response) :=
  ⟨by decide, rfl,
    (transcribe_audio_engine_failure ⟨some "sample.wav", some "audio/wav"⟩
      ⟨.ok, .asrError "boom", true⟩ "sw" "boom" (by decide) rfl).1 rfl,
    (transcribe_audio_engine_failure ⟨some "sample.wav", some "audio/wav"⟩
      ⟨.ok, .otherError "secret traceback", true⟩ "sw" "secret traceback"
      (by decide) rfl).2.1 rfl,
    (transcribe_audio_engine_failure ⟨some "sample.wav", some "audio/wav"⟩
      ⟨.ok, .otherError "secret traceback", true⟩ "sw" "secret traceback"
      (by decide) rfl).2.2 "another secret"⟩

/-- Claim C4: calling `transcribe` before the processor and model are
loaded fails with the configuration error "ASR model not loaded" — a
message no initialized engine ever produces — and the handler surfaces
that call as a 422 whose detail contains "not loaded". -/
theorem transcribe_not_loaded (st : EngineState) (infer : InferOutcome)
    (file : Upload) (env : Env) (lang : String)
    (hst : st.processorLoaded = false ∨ st.modelLoaded = false)
    (hv : validationError file = none) (hs : env.stage = .ok) :
    transcribe st infer = .asrError "ASR model not loaded" ∧
    (∀ st2 infer2, st2.processorLoaded = true → st2.modelLoaded = true →
      transcribe st2 infer2 ≠ .asrError "ASR model not loaded") ∧
    (transcribe_audio file
        { env with engine := (transcribe st infer).toCallOutcome }
        lang).response =
      .err 422 ("ASR processing error: " ++ "ASR model not loaded") ∧
    ("not loaded").data <:+:
      ("ASR processing error: " ++ "ASR model not loaded").data := by
  have h1 : transcribe st infer = .asrError "ASR model not loaded" := by
    rcases hst with h | h <;> simp [transcribe, h]
  refine ⟨h1, ?_, ?_, by decide⟩
  · intro st2 infer2 hp hm hcontra
    cases infer2 with
    | decoded t => simp [transcribe, hp, hm] at hcontra
    | raised m =>
      simp [transcribe, hp, hm] at hcontra
      have hlen := congrArg String.length hcontra
      rw [String.length_append] at hlen
      have h22 : ("Transcription failed: ").length = 22 := rfl
      have h20 : ("ASR model not loaded").length = 20 := rfl
      rw [h22, h20] at hlen
      omega
  · rw [@transcribe_audio_of_stage_ok file
        { env with engine := (transcribe st infer).toCallOutcome } lang hv hs]
    have h2 : ({ env with engine := (transcribe st infer).toCallOutcome }
        : Env).engine = .asrError "ASR model not loaded" := by
      rw [show ({ env with engine := (transcribe st infer).toCallOutcome }
        : Env).engine = (transcribe st infer).toCallOutcome from rfl, h1]
      rfl
    rw [h2]

/-- Claim C4, witness: with the initial (unloaded) module state,
`transcribe` fails with "ASR model not loaded" and a validated upload gets
a 422 containing "not loaded". -/
theorem transcribe_not_loaded_witness :
    (initialState.processorLoaded = false ∨
      initialState.modelLoaded = false) ∧
    validationError ⟨some "sample.wav", some "audio/wav"⟩ = none ∧
    (Env.mk .ok (.ok "ignored") true).stage = .ok ∧
    (transcribe initialState (.decoded "hello") =
        .asrError "ASR model not loaded" ∧
      (∀ st2 infer2, st2.processorLoaded = true → st2.modelLoaded = true →
        transcribe st2 infer2 ≠ .asrError "ASR model not loaded") ∧
      (transcribe_audio ⟨some "sample.wav", some "audio/wav"⟩
          { Env.mk .ok (.ok "ignored") true with
            engine :=
              (transcribe initialState (.decoded "hello")).toCallOutcome }
          "sw").response =
        .err 422 ("ASR processing error: " ++ "ASR model not loaded") ∧
      ("not loaded").data <:+:
        ("ASR processing error: " ++ "ASR model not loaded").data) :=
  ⟨Or.inl rfl, by decide, rfl,
    transcribe_not_loaded initialState (.decoded "hello")
      ⟨some "sample.wav", some "audio/wav"⟩ ⟨.ok, .ok "ignored", true⟩ "sw"
      (Or.inl rfl) (by decide) rfl⟩

/-- Ceiling division of an exact multiple: `(r * n + r - 1) / r = n`. -/
theorem ceil_div_exact (r n : Nat) (h : 0 < r) : (r * n + r - 1) / r = n := by
  have h1 : r * n + r - 1 = (r - 1) + r * n := by omega
  rw [h1, Nat.add_mul_div_left _ _ h, Nat.div_eq_of_lt (by omega)]
  omega

/-- Claim C6: the waveform `preprocess_audio` hands to the model is
sampled at 16 kHz, single-channel, never longer than 30 seconds of
16 kHz frames, and audio of native duration at least 30 seconds comes
out truncated to exactly 30 seconds. -/
theorem preprocess_audio_contract (a : RawAudio) (h : 0 < a.sampleRate) :
    (preprocess_audio a).sampleRate = 16000 ∧
    (preprocess_audio a).channels = 1 ∧
    (preprocess_audio a).frames ≤ 30 * 16000 ∧
    (30 * a.sampleRate ≤ a.frames →
      (preprocess_audio a).frames = 30 * 16000) := by
  have hkey : (a.sampleRate * (30 * 16000) + a.sampleRate - 1) /
      a.sampleRate = 30 * 16000 := ceil_div_exact a.sampleRate (30 * 16000) h
  refine ⟨rfl, rfl, ?_, ?_⟩
  · show (min a.frames (MAX_INPUT_LENGTH * a.sampleRate) * SAMPLE_RATE +
      a.sampleRate - 1) / a.sampleRate ≤ 30 * 16000
    rw [show MAX_INPUT_LENGTH = 30 from rfl, show SAMPLE_RATE = 16000 from rfl]
    calc (min a.frames (30 * a.sampleRate) * 16000 + a.sampleRate - 1) /
          a.sampleRate
        ≤ (a.sampleRate * (30 * 16000) + a.sampleRate - 1) / a.sampleRate := by
          apply Nat.div_le_div_right
          apply Nat.sub_le_sub_right
          apply Nat.add_le_add_right
          calc min a.frames (30 * a.sampleRate) * 16000
              ≤ 30 * a.sampleRate * 16000 :=
                Nat.mul_le_mul_right _ (Nat.min_le_right _ _)
            _ = a.sampleRate * (30 * 16000) := by ring
      _ = 30 * 16000 := hkey
  · intro hlong
    show (min a.frames (MAX_INPUT_LENGTH * a.sampleRate) * SAMPLE_RATE +
      a.sampleRate - 1) / a.sampleRate = 30 * 16000
    rw [show MAX_INPUT_LENGTH = 30 from rfl, show SAMPLE_RATE = 16000 from rfl,
      Nat.min_eq_right hlong, show 30 * a.sampleRate * 16000 =
        a.sampleRate * (30 * 16000) from by ring, hkey]

/-- Claim C6, witness: a 45-second stereo recording at 44.1 kHz comes out
as 30 seconds of mono 16 kHz audio. -/
theorem preprocess_audio_contract_witness :
    0 < (RawAudio.mk 44100 2 (44100 * 45)).sampleRate ∧
    ((preprocess_audio ⟨44100, 2, 44100 * 45⟩).sampleRate = 16000 ∧
      (preprocess_audio ⟨44100, 2, 44100 * 45⟩).channels = 1 ∧
      (preprocess_audio ⟨44100, 2, 44100 * 45⟩).frames ≤ 30 * 16000 ∧
      (30 * (RawAudio.mk 44100 2 (44100 * 45)).sampleRate ≤
          (RawAudio.mk 44100 2 (44100 * 45)).frames →
        (preprocess_audio ⟨44100, 2, 44100 * 45⟩).frames = 30 * 16000)) :=
  ⟨by decide, preprocess_audio_contract ⟨44100, 2, 44100 * 45⟩ (by decide)⟩

/-- Claim C7: `health_check` is a total function (it never raises). Before
initialization it reports the healthy shape with `model_loaded = false`,
`model_status = "not loaded"`, `device = "unknown"`,
`max_audio_length_seconds = 30`, `sample_rate = 16000`; after a
successful `load_model` it reports `model_loaded = true`,
`model_status = "loaded"` and a device that is not "unknown"; and when
the body fails internally it returns the unhealthy shape carrying the
message instead of raising. -/
theorem health_check_contract (st : EngineState) (cuda : Bool)
    (msg : String) :
    health_check initialState none =
      .healthy false "not loaded" "unknown" 30 16000 ∧
    health_check (load_model cuda .ok st).1 none =
      .healthy true "loaded" (if cuda then "cuda" else "cpu") 30 16000 ∧
    (if cuda then "cuda" else "cpu") ≠ "unknown" ∧
    health_check st (some msg) = .unhealthy msg := by
  refine ⟨rfl, ?_, ?_, rfl⟩
  · cases cuda <;> rfl
  · cases cuda <;> decide

/-- Claim C10: on an initialized engine, `transcribe` returns the decoded
text stripped of leading and trailing whitespace — its first and last
characters, when present, are non-whitespace — and the `transcription`
field of the resulting 200 response is that stripped string. -/
theorem transcribe_strips_whitespace (st : EngineState)
    (infer : InferOutcome) (file : Upload) (env : Env) (lang text : String)
    (hp : st.processorLoaded = true) (hm : st.modelLoaded = true)
    (hi : infer = .decoded text) :
    transcribe st infer = .ok (pyStrip text) ∧
    (∀ c, (pyStrip text).data.head? = some c → pyIsSpace c = false) ∧
    (∀ c, (pyStrip text).data.getLast? = some c → pyIsSpace c = false) ∧
    (validationError file = none → env.stage = .ok →
      (transcribe_audio file
          { env with engine := (transcribe st infer).toCallOutcome }
          lang).response =
        .ok { status := "success", transcription := pyStrip text
              language := lang, model := "RareElf/swahili-wav2vec2-asr"
              model_version := "1.0.0", duration_seconds := none }) := by
  have htr : transcribe st infer = .ok (pyStrip text) := by
    rw [hi]
    simp [transcribe, hp, hm]
  refine ⟨htr, ?_, ?_, ?_⟩
  · intro c hc
    have hsuf : ((text.data.dropWhile pyIsSpace).reverse.dropWhile pyIsSpace)
        <:+ (text.data.dropWhile pyIsSpace).reverse :=
      List.dropWhile_suffix pyIsSpace
    have hpre : ((text.data.dropWhile pyIsSpace).reverse.dropWhile
        pyIsSpace).reverse <+: text.data.dropWhile pyIsSpace := by
      have h2 := List.reverse_prefix.mpr hsuf
      rwa [List.reverse_reverse] at h2
    obtain ⟨tail, htail⟩ := hpre
    have hhead : (text.data.dropWhile pyIsSpace).head? = some c := by
      rw [← htail, List.head?_append]
      have hc2 : (((text.data.dropWhile pyIsSpace).reverse.dropWhile
          pyIsSpace).reverse).head? = some c := hc
      rw [hc2]
      rfl
    exact head?_dropWhile_false hhead
  · intro c hc
    have hc2 : ((text.data.dropWhile pyIsSpace).reverse.dropWhile
        pyIsSpace).head? = some c := by
      rw [← List.getLast?_reverse]
      exact hc
    exact head?_dropWhile_false hc2
  · intro hv hs
    rw [@transcribe_audio_of_stage_ok file
        { env with engine := (transcribe st infer).toCallOutcome } lang hv hs]
    have h2 : ({ env with engine := (transcribe st infer).toCallOutcome }
        : Env).engine = .ok (pyStrip text) := by
      rw [show ({ env with engine := (transcribe st infer).toCallOutcome }
        : Env).engine = (transcribe st infer).toCallOutcome from rfl, htr]
      rfl
    rw [h2]

/-- Claim C10, witness: decoding "  habari yako \n" on a loaded engine
yields "habari yako", whose first and last characters are
non-whitespace, and a 200 whose transcription is "habari yako". -/
theorem transcribe_strips_whitespace_witness :
    (EngineState.mk true true (some "cpu")).processorLoaded = true ∧
    (EngineState.mk true true (some "cpu")).modelLoaded = true ∧
    (InferOutcome.decoded "  habari yako \n" =
      InferOutcome.decoded "  habari yako \n") ∧
    (transcribe ⟨true, true, some "cpu"⟩ (.decoded "  habari yako \n") =
        .ok (pyStrip "  habari yako \n") ∧
      (∀ c, (pyStrip "  habari yako \n").data.head? = some c →
        pyIsSpace c = false) ∧
      (∀ c, (pyStrip "  habari yako \n").data.getLast? = some c →
        pyIsSpace c = false) ∧
      (validationError ⟨some "sample.wav", some "audio/wav"⟩ = none →
        (Env.mk .ok (.ok "ignored") true).stage = .ok →
        (transcribe_audio ⟨some "sample.wav", some "audio/wav"⟩
            { Env.mk .ok (.ok "ignored") true with
              engine := (transcribe ⟨true, true, some "cpu"⟩
                (.decoded "  habari yako \n")).toCallOutcome }
            "sw").response =
          .ok { status := "success"
                transcription := pyStrip "  habari yako \n"
                language := "sw", model := "RareElf/swahili-wav2vec2-asr"
                model_version := "1.0.0", duration_seconds := none })) :=
  ⟨rfl, rfl, rfl,
    transcribe_strips_whitespace ⟨true, true, some "cpu"⟩
      (.decoded "  habari yako \n") ⟨some "sample.wav", some "audio/wav"⟩
      ⟨.ok, .ok "ignored", true⟩ "sw" "  habari yako \n" rfl rfl rfl⟩

end SemaASR
